import Mathlib

/-!
Verification of the contribution-attribution investment calculator
(`src/utils/calculator.ts`) and the input validator of the
snowball-map repository.

Modelling conventions:
* Finite JavaScript numbers are modelled as exact rationals (`ℚ`);
  floating-point rounding is idealised away.
* Where behaviour depends on the IEEE special values (`NaN`, `±Infinity`)
  or on `null`/`undefined` arguments, the explicit models `JSNum` / `JSVal`
  of JavaScript numeric values are used, with arithmetic following the
  ECMAScript semantics on those special values.
* Loop counters (`year`, `month`, `periods`) are natural numbers; the
  `for` loops of the source become `List.range` maps, and accumulating
  `+=` loops become left folds (or `Finset.range` sums, which agree
  because rational addition is associative and commutative).
-/

/-- JavaScript number: `NaN`, `+Infinity`, `-Infinity`, or a finite value
(modelled as an exact rational). -/
inductive JSNum where
  | nan
  | posInf
  | negInf
  | finite (q : ℚ)
deriving DecidableEq, Inhabited

/-- JavaScript value as far as the numeric code paths are concerned:
`undefined`, `null`, or a number.  Used for the `rate` argument of
`calculateFutureValue`, whose guard explicitly tests `null`/`undefined`. -/
inductive JSVal where
  | undef
  | null
  | num (x : JSNum)
deriving DecidableEq, Inhabited

/-- ECMAScript addition on numbers, restricted to the cases that arise:
`NaN` absorbs, infinities of the same sign stay, opposite infinities give
`NaN`, finite values add exactly. -/
def jsAdd : JSNum → JSNum → JSNum
  | .nan, _ => .nan
  | _, .nan => .nan
  | .posInf, .negInf => .nan
  | .negInf, .posInf => .nan
  | .posInf, _ => .posInf
  | _, .posInf => .posInf
  | .negInf, _ => .negInf
  | _, .negInf => .negInf
  | .finite a, .finite b => .finite (a + b)

/-- ECMAScript multiplication on numbers: `NaN` absorbs, an infinity times
zero is `NaN`, an infinity times a nonzero value is an infinity of the
product sign, finite values multiply exactly. -/
def jsMul : JSNum → JSNum → JSNum
  | .nan, _ => .nan
  | _, .nan => .nan
  | .posInf, .posInf => .posInf
  | .posInf, .negInf => .negInf
  | .negInf, .posInf => .negInf
  | .negInf, .negInf => .posInf
  | .posInf, .finite b => if b = 0 then .nan else if 0 < b then .posInf else .negInf
  | .finite a, .posInf => if a = 0 then .nan else if 0 < a then .posInf else .negInf
  | .negInf, .finite b => if b = 0 then .nan else if 0 < b then .negInf else .posInf
  | .finite a, .negInf => if a = 0 then .nan else if 0 < a then .negInf else .posInf
  | .finite a, .finite b => .finite (a * b)

/-- Model of `Math.pow` with a natural-number exponent, as iterated ECMAScript
multiplication; `x ** 0 = 1` for every `x` (including `NaN`), matching
`Math.pow`. -/
def jsPowNat (b : JSNum) : ℕ → JSNum
  | 0 => .finite 1
  | n + 1 => jsMul b (jsPowNat b n)

/-- ECMAScript `<` on numbers: any comparison with `NaN` is false;
`-Infinity` is below and `+Infinity` above every other value. -/
def jsLt : JSNum → JSNum → Bool
  | .nan, _ => false
  | _, .nan => false
  | .negInf, .negInf => false
  | .negInf, _ => true
  | _, .negInf => false
  | .posInf, _ => false
  | .finite _, .posInf => true
  | .finite a, .finite b => decide (a < b)

/-- ECMAScript `<=` on numbers: any comparison with `NaN` is false. -/
def jsLe : JSNum → JSNum → Bool
  | .nan, _ => false
  | _, .nan => false
  | .negInf, _ => true
  | _, .negInf => false
  | _, .posInf => true
  | .posInf, _ => false
  | .finite a, .finite b => decide (a ≤ b)

/-- Whether a JavaScript number is finite (neither `NaN` nor an infinity). -/
def JSNum.isFiniteNum : JSNum → Bool
  | .finite _ => true
  | _ => false

/-- ECMAScript division of two finite numbers: `0 / 0` is `NaN`, a nonzero
value over `0` is a signed infinity, otherwise exact rational division. -/
def jsDivQ (a b : ℚ) : JSNum :=
  if b = 0 then
    if a = 0 then .nan else if 0 < a then .posInf else .negInf
  else .finite (a / b)

/-- Subtraction of a finite number from a JavaScript number (the `- 1` at
the end of the CAGR expression): `NaN` and infinities are preserved. -/
def jsSub (a : JSNum) (q : ℚ) : JSNum :=
  match a with
  | .nan => .nan
  | .posInf => .posInf
  | .negInf => .negInf
  | .finite x => .finite (x - q)

/-- Whether a rational is an odd integer (used by `Math.pow` for a
`-Infinity` base). -/
def qIsOddInt (e : ℚ) : Bool :=
  e.den = 1 && e.num % 2 ≠ 0

/-- Model of `Math.pow` with a rational exponent, for the cases whose value the
ECMAScript specification pins down exactly: exponent `0` gives `1`; a `NaN`
base propagates; a `±Infinity` base follows the sign/parity table; a finite
base with an integer exponent is an exact rational power (with
`Math.pow(0, negative) = Infinity`); a negative finite base with a
fractional exponent is `NaN`; bases `0` and `1` are exact.  The one
remaining case — a positive finite base other than `1` with a fractional
exponent — is irrational in general and has no exact value in this
rational model; it is mapped to `nan` as an out-of-model marker and no
theorem in this development evaluates that branch. -/
def jsPowQ (b : JSNum) (e : ℚ) : JSNum :=
  if e = 0 then .finite 1
  else
    match b with
    | .nan => .nan
    | .posInf => if 0 < e then .posInf else .finite 0
    | .negInf =>
        if 0 < e then (if qIsOddInt e then .negInf else .posInf)
        else .finite 0
    | .finite q =>
        if e.den = 1 then
          if q = 0 ∧ e.num < 0 then .posInf else .finite (q ^ e.num)
        else
          if q < 0 then .nan
          else if q = 0 then (if 0 < e then .finite 0 else .posInf)
          else if q = 1 then .finite 1
          else .nan

/-! ## The calculation engine (`src/utils/calculator.ts`) -/

/-- Input parameters of the calculation engine.  `years` is modelled as a
natural number: the engine's loops compare the integer loop counter
against it, and every claim about the engine supplies an integer value. -/
structure InvestmentParams where
  monthlyAmount : ℚ
  annualRate : ℚ
  years : ℕ
deriving DecidableEq, Inhabited

/-- One per-contribution-year record of the engine's output. -/
structure YearlyContribution where
  year : ℕ
  monthlyAmount : ℚ
  annualAmount : ℚ
  totalContributed : ℚ
  currentValue : ℚ
  contribution : ℚ
deriving DecidableEq, Inhabited

/-- Aggregate result of the engine. -/
structure InvestmentResult where
  totalValue : ℚ
  totalContributed : ℚ
  totalProfit : ℚ
  profitRate : ℚ
  yearlyContributions : List YearlyContribution
deriving DecidableEq, Inhabited

/-- The function `calculateFutureValue` restricted to finite rational inputs: the
`isNaN(rate) || rate === null || rate === undefined` guard never fires for
a rational rate, leaving the zero-period short-circuit and the compound
formula `presentValue * (1 + rate) ^ periods`.  The full JavaScript-valued
version, including the guard, is `calculateFutureValueJS` below. -/
def calculateFutureValue (presentValue rate : ℚ) (periods : ℕ) : ℚ :=
  if periods = 0 then presentValue
  else presentValue * (1 + rate) ^ periods

/-- The function `calculateFutureValue` over JavaScript values, guard included: a rate
that is `NaN`, `null` or `undefined` (note `isNaN(undefined)` is true) is
replaced by the default `0.01`; then the zero-period short-circuit and
`presentValue * Math.pow(1 + rate, periods)`. -/
def calculateFutureValueJS (presentValue : JSNum) (rate : JSVal) (periods : ℕ) : JSNum :=
  let r : JSNum :=
    match rate with
    | .undef => .finite (1 / 100)
    | .null => .finite (1 / 100)
    | .num .nan => .finite (1 / 100)
    | .num x => x
  if periods = 0 then presentValue
  else jsMul presentValue (jsPowNat (jsAdd (.finite 1) r) periods)

/-- Model of `calculateYearlyContributions`: the loop `for (year = 1; year <= years;
year++)` becomes a map over `List.range years` (entry `i` is year `i + 1`). -/
def calculateYearlyContributions (params : InvestmentParams) : List YearlyContribution :=
  (List.range params.years).map fun i =>
    let year := i + 1
    let annualAmount := params.monthlyAmount * 12
    let remainingYears := params.years - year
    let currentValue := calculateFutureValue annualAmount params.annualRate remainingYears
    { year := year
      monthlyAmount := params.monthlyAmount
      annualAmount := annualAmount
      totalContributed := annualAmount * (year : ℚ)
      currentValue := currentValue
      -- 寄与度は現在価値と同値
      contribution := currentValue }

/-- Model of `InvestmentCalculator.calculate`: the `reduce((sum, year) => sum +
year.currentValue, 0)` becomes a left fold over the mapped list. -/
def calculate (params : InvestmentParams) : InvestmentResult :=
  let yearlyContributions := calculateYearlyContributions params
  let totalValue := (yearlyContributions.map (·.currentValue)).foldl (· + ·) 0
  let totalContributed := params.monthlyAmount * 12 * (params.years : ℚ)
  let totalProfit := totalValue - totalContributed
  let profitRate := if 0 < totalContributed then totalProfit / totalContributed else 0
  { totalValue := totalValue
    totalContributed := totalContributed
    totalProfit := totalProfit
    profitRate := profitRate
    yearlyContributions := yearlyContributions }

/-- One stage of the stacked-area chart data. -/
structure GrowthStage where
  yearContributed : ℕ
  value : ℚ
  accumulated : ℚ
deriving DecidableEq, Inhabited

/-- One entry (per elapsed year) of the stacked-area chart data. -/
structure GrowthStageData where
  year : ℕ
  stages : List GrowthStage
deriving DecidableEq, Inhabited

/-- Model of `generateGrowthStageData`: nested loops over `currentYear` and
`contributedYear`; the running `accumulated += value` becomes, at stage
index `cj`, the left fold of the values pushed for indices `0..cj`. -/
def generateGrowthStageData (params : InvestmentParams) : List GrowthStageData :=
  (List.range params.years).map fun ci =>
    let currentYear := ci + 1
    let stages := (List.range currentYear).map fun cj =>
      let contributedYear := cj + 1
      let annualAmount := params.monthlyAmount * 12
      let yearsGrown := currentYear - contributedYear
      let value := calculateFutureValue annualAmount params.annualRate yearsGrown
      { yearContributed := contributedYear
        value := value
        accumulated := ((List.range (cj + 1)).map fun t =>
          calculateFutureValue (params.monthlyAmount * 12) params.annualRate
            (currentYear - (t + 1))).foldl (· + ·) 0 }
    { year := currentYear, stages := stages }

/-- Model of `calculateMonthlyFutureValue`: a zero monthly rate returns the payment
unchanged, otherwise `monthlyPayment * Math.pow(1 + monthlyRate, months)`. -/
def calculateMonthlyFutureValue (monthlyPayment monthlyRate : ℚ) (months : ℕ) : ℚ :=
  if monthlyRate = 0 then monthlyPayment
  else monthlyPayment * (1 + monthlyRate) ^ months

/-- Model of `calculateWithMonthlyCompounding`: year `i + 1` covers month indices
`i * 12 + j` for `j < 12`, each compounding for `totalMonths - (i * 12 + j)`
months; the inner accumulating loop becomes a `Finset.range 12` sum and
the outer `totalValue += yearValue` a left fold over the year values. -/
def calculateWithMonthlyCompounding (params : InvestmentParams) : InvestmentResult :=
  let monthlyRate := params.annualRate / 12
  let totalMonths := params.years * 12
  let yearlyContributions := (List.range params.years).map fun i =>
    let yearValue := ∑ j ∈ Finset.range 12,
      calculateMonthlyFutureValue params.monthlyAmount monthlyRate (totalMonths - (i * 12 + j))
    { year := i + 1
      monthlyAmount := params.monthlyAmount
      annualAmount := params.monthlyAmount * 12
      totalContributed := params.monthlyAmount * 12 * ((i : ℚ) + 1)
      currentValue := yearValue
      contribution := yearValue }
  let totalValue := (yearlyContributions.map (·.currentValue)).foldl (· + ·) 0
  let totalContributed := params.monthlyAmount * (totalMonths : ℚ)
  let totalProfit := totalValue - totalContributed
  let profitRate := if 0 < totalContributed then totalProfit / totalContributed else 0
  { totalValue := totalValue
    totalContributed := totalContributed
    totalProfit := totalProfit
    profitRate := profitRate
    yearlyContributions := yearlyContributions }

/-- Output record of `calculatePerformanceStats`.  The CAGR is
JavaScript-number-valued because its expression divides by
`totalContributed` without a guard; the other two fields only ever divide
under an explicit guard (`totalContributed > 0`) or by the positive list
length, so they stay rational for rational inputs. -/
structure PerformanceStats where
  averageAnnualReturn : ℚ
  totalReturnRate : ℚ
  compoundAnnualGrowthRate : JSNum
deriving DecidableEq

/-- The `reduce` over `annualAmount` inside `calculatePerformanceStats`. -/
def psTotalContributed (yearlyContributions : List YearlyContribution) : ℚ :=
  (yearlyContributions.map (·.annualAmount)).foldl (· + ·) 0

/-- The `reduce` over `currentValue` inside `calculatePerformanceStats`. -/
def psTotalValue (yearlyContributions : List YearlyContribution) : ℚ :=
  (yearlyContributions.map (·.currentValue)).foldl (· + ·) 0

/-- Model of `calculatePerformanceStats`: all-zero on an empty list; otherwise
`totalReturnRate` is guarded by `totalContributed > 0`, the CAGR is
`Math.pow(totalValue / totalContributed, 1 / years) - 1` guarded only by
`years > 0`, and `averageAnnualReturn = totalReturnRate / years`. -/
def calculatePerformanceStats (yearlyContributions : List YearlyContribution) : PerformanceStats :=
  if yearlyContributions.length = 0 then
    { averageAnnualReturn := 0, totalReturnRate := 0, compoundAnnualGrowthRate := .finite 0 }
  else
    let totalContributed := psTotalContributed yearlyContributions
    let totalValue := psTotalValue yearlyContributions
    let years := yearlyContributions.length
    let totalReturnRate :=
      if 0 < totalContributed then (totalValue - totalContributed) / totalContributed else 0
    let compoundAnnualGrowthRate :=
      if 0 < years then jsSub (jsPowQ (jsDivQ totalValue totalContributed) (1 / (years : ℚ))) 1
      else .finite 0
    let averageAnnualReturn := totalReturnRate / (years : ℚ)
    { averageAnnualReturn := averageAnnualReturn
      totalReturnRate := totalReturnRate
      compoundAnnualGrowthRate := compoundAnnualGrowthRate }

/-! ## The input validator (`InputValidator`) -/

/-- One range constraint of `INPUT_CONSTRAINTS`. -/
structure RangeConstraint where
  min : ℚ
  max : ℚ
  step : ℚ
deriving DecidableEq

/-- The shape of `INPUT_CONSTRAINTS`. -/
structure InputConstraints where
  annualAmount : RangeConstraint
  annualRate : RangeConstraint
  years : RangeConstraint
deriving DecidableEq

/-- The constant `INPUT_CONSTRAINTS`: amounts in 1,000 .. 100,000,000 (step 1,000),
rates in 0.0001 .. 0.3 (step 0.001), years in 1 .. 50 (step 1). -/
def INPUT_CONSTRAINTS : InputConstraints :=
  { annualAmount := { min := 1000, max := 100000000, step := 1000 }
    annualRate := { min := 1 / 10000, max := 3 / 10, step := 1 / 1000 }
    years := { min := 1, max := 50, step := 1 } }

/-- The validator module's `InvestmentParams` record (its shape differs
from the calculator's: it carries `annualAmount` rather than
`monthlyAmount`).  Fields are JavaScript numbers so that `NaN`/`Infinity`
inputs are representable. -/
structure InvestmentParamsV where
  annualAmount : JSNum
  annualRate : JSNum
  years : JSNum
deriving DecidableEq

/-- A `ValidationError`: offending field, human-readable message, and the
offending value. -/
structure ValidationError where
  field : String
  message : String
  value : JSNum
deriving DecidableEq

/-- Severity classes returned by `getErrorSeverity`. -/
inductive Severity where
  | error
  | warning
  | info
deriving DecidableEq

/-- Whether `pat` is a prefix of the second character list. -/
def startsWithChars : List Char → List Char → Bool
  | [], _ => true
  | _ :: _, [] => false
  | a :: as, b :: bs => a = b && startsWithChars as bs

/-- Whether `pat` occurs as a contiguous substring of the character list
(the JavaScript `String.prototype.includes`). -/
def includesChars (pat : List Char) : List Char → Bool
  | [] => pat.isEmpty
  | c :: rest => startsWithChars pat (c :: rest) || includesChars pat rest

/-- JavaScript `message.includes(pat)` on Lean strings. -/
def stringIncludes (s pat : String) : Bool :=
  includesChars pat.data s.data

/-- JavaScript `toLowerCase`, as a per-character map over the string's
characters (ASCII lowering; all other characters are unchanged). -/
def stringToLower (s : String) : String :=
  ⟨s.data.map Char.toLower⟩

/-- Model of `Number.isInteger`: true exactly for finite numbers with integral
value. -/
def jsIsInteger : JSNum → Bool
  | .finite q => q.den = 1
  | _ => false

/-- Model of `InputValidator.validateAnnualAmount`.  The `typeof` test is always
`'number'` in this model, so the first guard reduces to the `isNaN` test;
the interpolated bounds (`toLocaleString`) render as `1,000` and
`100,000,000`.  Sequential `errors.push` calls become list concatenation
in the same order. -/
def validateAnnualAmount (annualAmount : JSNum) : List ValidationError :=
  let constraints := INPUT_CONSTRAINTS.annualAmount
  if annualAmount = .nan then
    [{ field := "annualAmount", message := "年次積立額は数値で入力してください", value := annualAmount }]
  else
    (if jsLt annualAmount (.finite constraints.min) then
      [{ field := "annualAmount", message := "年次積立額は1,000円以上で入力してください", value := annualAmount }]
     else []) ++
    (if jsLt (.finite constraints.max) annualAmount then
      [{ field := "annualAmount", message := "年次積立額は100,000,000円以下で入力してください", value := annualAmount }]
     else []) ++
    (if jsLe annualAmount (.finite 0) then
      [{ field := "annualAmount", message := "年次積立額は正の値で入力してください", value := annualAmount }]
     else [])

/-- Model of `InputValidator.validateAnnualRate`; the interpolated percentages
(`(min * 100).toFixed(1)` and `(max * 100).toFixed(1)`) render as `0.0`
and `30.0`. -/
def validateAnnualRate (annualRate : JSNum) : List ValidationError :=
  let constraints := INPUT_CONSTRAINTS.annualRate
  if annualRate = .nan then
    [{ field := "annualRate", message := "想定年利は数値で入力してください", value := annualRate }]
  else
    (if jsLt annualRate (.finite constraints.min) then
      [{ field := "annualRate", message := "想定年利は0.0%以上で入力してください", value := annualRate }]
     else []) ++
    (if jsLt (.finite constraints.max) annualRate then
      [{ field := "annualRate", message := "想定年利は30.0%以下で入力してください", value := annualRate }]
     else []) ++
    (if jsLt annualRate (.finite (-(5 : ℚ) / 100)) then
      [{ field := "annualRate", message := "想定年利が非常に低く設定されています。計算結果をご確認ください", value := annualRate }]
     else []) ++
    (if jsLt (.finite (15 / 100)) annualRate then
      [{ field := "annualRate", message := "想定年利が非常に高く設定されています。現実的な値をご検討ください", value := annualRate }]
     else [])

/-- Model of `InputValidator.validateYears`: the `isNaN` early return, then the
`Number.isInteger` check, the range checks against 1 and 50, and the
positivity check, pushed in that order. -/
def validateYears (years : JSNum) : List ValidationError :=
  let constraints := INPUT_CONSTRAINTS.years
  if years = .nan then
    [{ field := "years", message := "積立期間は数値で入力してください", value := years }]
  else
    (if !jsIsInteger years then
      [{ field := "years", message := "積立期間は整数で入力してください", value := years }]
     else []) ++
    (if jsLt years (.finite constraints.min) then
      [{ field := "years", message := "積立期間は1年以上で入力してください", value := years }]
     else []) ++
    (if jsLt (.finite constraints.max) years then
      [{ field := "years", message := "積立期間は50年以下で入力してください", value := years }]
     else []) ++
    (if jsLe years (.finite 0) then
      [{ field := "years", message := "積立期間は正の値で入力してください", value := years }]
     else [])

/-- Model of `InputValidator.validateLogicalConsistency`: the projected total
investment `annualAmount * years` against the 100-billion ceiling, and the
negative-rate long-horizon warning. -/
def validateLogicalConsistency (params : InvestmentParamsV) : List ValidationError :=
  let totalInvestment := jsMul params.annualAmount params.years
  let maxReasonableInvestment : ℚ := 100000000000
  (if jsLt (.finite maxReasonableInvestment) totalInvestment then
    [{ field := "annualAmount", message := "総投資額が非常に大きくなります。現実的な値をご検討ください", value := totalInvestment }]
   else []) ++
  (if jsLt params.annualRate (.finite 0) && jsLt (.finite 10) params.years then
    [{ field := "annualRate", message := "マイナス利率での長期投資は元本割れのリスクが高くなります", value := params.annualRate }]
   else [])

/-- Model of `InputValidator.validate`: the four groups of violations concatenated
in source order. -/
def validate (params : InvestmentParamsV) : List ValidationError :=
  validateAnnualAmount params.annualAmount ++
  validateAnnualRate params.annualRate ++
  validateYears params.years ++
  validateLogicalConsistency params

/-- Model of `InputValidator.getErrorSeverity`: pattern-match canonical phrases in
the lower-cased message (the messages contain no Latin letters, so the
lower-casing leaves them unchanged). -/
def getErrorSeverity (error : ValidationError) : Severity :=
  let message := stringToLower error.message
  if stringIncludes message "数値で入力" ||
     stringIncludes message "以上で入力" ||
     stringIncludes message "以下で入力" ||
     stringIncludes message "正の値で入力" then .error
  else if stringIncludes message "非常に" ||
          stringIncludes message "現実的な" ||
          stringIncludes message "リスクが高く" then .warning
  else .info

/-! ## Concrete inputs used by the claims -/

/-- A one-element contribution list whose `annualAmount` (and
`currentValue`) sum to 0: the zero-contribution input to
`calculatePerformanceStats`. -/
def cexStatsList : List YearlyContribution :=
  [{ year := 1, monthlyAmount := 0, annualAmount := 0, totalContributed := 0,
     currentValue := 0, contribution := 0 }]

/-- Validator input with in-bounds amount and rate and the non-integer
`years = 2.5`. -/
def cexValidatorParams : InvestmentParamsV :=
  { annualAmount := .finite 400000, annualRate := .finite (1 / 20), years := .finite (5 / 2) }

/-- The concrete scenario of the spec: 33,333 per month, 5%, 30 years. -/
def scenarioParams : InvestmentParams :=
  { monthlyAmount := 33333, annualRate := 1 / 20, years := 30 }

/-- The monthly-vs-annual divergence scenario: 10,000 per month, 5%,
10 years. -/
def divergenceParams : InvestmentParams :=
  { monthlyAmount := 10000, annualRate := 1 / 20, years := 10 }

/-! ## Bridging lemmas -/

/-- A left fold of rational addition is the list sum. -/
theorem foldl_add_eq_sum (l : List ℚ) : l.foldl (· + ·) 0 = l.sum := by
  rw [List.sum_eq_foldl]

/-- A left fold of rational addition over a mapped `List.range` is the
corresponding `Finset.range` sum. -/
theorem range_map_foldl (f : ℕ → ℚ) (n : ℕ) :
    ((List.range n).map f).foldl (· + ·) 0 = ∑ i ∈ Finset.range n, f i := by
  rw [foldl_add_eq_sum]
  induction n with
  | zero => simp
  | succ n ih =>
      rw [List.range_succ, List.map_append, List.sum_append, Finset.sum_range_succ, ih]
      simp

/-- The zero-period branch of `calculateFutureValue` agrees with the
compound formula, so the function is the formula for every period count. -/
theorem calculateFutureValue_eq (presentValue rate : ℚ) (periods : ℕ) :
    calculateFutureValue presentValue rate periods = presentValue * (1 + rate) ^ periods := by
  rw [calculateFutureValue]
  split_ifs with h
  · subst h; simp
  · rfl

/-- The totalValue of `calculate` as a `Finset.range` sum of future values. -/
theorem calculate_totalValue_eq (p : InvestmentParams) :
    (calculate p).totalValue =
      ∑ i ∈ Finset.range p.years,
        calculateFutureValue (p.monthlyAmount * 12) p.annualRate (p.years - (i + 1)) := by
  show ((calculateYearlyContributions p).map (·.currentValue)).foldl (· + ·) 0 = _
  rw [calculateYearlyContributions, List.map_map]
  exact range_map_foldl _ _

/-- The totalValue of `calculate` in closed form: the annual amount times the
geometric terms `(1 + rate) ^ k`, `k < years`. -/
theorem calculate_totalValue_closed (p : InvestmentParams) :
    (calculate p).totalValue =
      ∑ k ∈ Finset.range p.years, p.monthlyAmount * 12 * (1 + p.annualRate) ^ k := by
  rw [calculate_totalValue_eq]
  have h : ∀ i ∈ Finset.range p.years,
      calculateFutureValue (p.monthlyAmount * 12) p.annualRate (p.years - (i + 1)) =
        p.monthlyAmount * 12 * (1 + p.annualRate) ^ (p.years - 1 - i) := by
    intro i hi
    rw [calculateFutureValue_eq]
    have he : p.years - (i + 1) = p.years - 1 - i := by omega
    rw [he]
  rw [Finset.sum_congr rfl h]
  exact Finset.sum_range_reflect (fun k => p.monthlyAmount * 12 * (1 + p.annualRate) ^ k) p.years

/-- The totalValue of `calculateWithMonthlyCompounding` as a double
`Finset.range` sum of monthly future values. -/
theorem cwmc_totalValue_eq (p : InvestmentParams) :
    (calculateWithMonthlyCompounding p).totalValue =
      ∑ i ∈ Finset.range p.years, ∑ j ∈ Finset.range 12,
        calculateMonthlyFutureValue p.monthlyAmount (p.annualRate / 12)
          (p.years * 12 - (i * 12 + j)) := by
  simp only [calculateWithMonthlyCompounding]
  rw [List.map_map]
  exact range_map_foldl _ _

/-! ## Claims -/

/-- C1: for every params with integer `years ≥ 1` and finite
`monthlyAmount` and `annualRate`, the sum of
`yearlyContributions[i].contribution` over all `i` equals `totalValue`
exactly, `totalValue` being computed as that sum with
`contribution = currentValue` in each record. -/
theorem C1_sum_invariant (p : InvestmentParams) (hY : 1 ≤ p.years) :
    ((calculate p).yearlyContributions.map (·.contribution)).sum = (calculate p).totalValue ∧
    ∀ e ∈ (calculate p).yearlyContributions, e.contribution = e.currentValue := by
  constructor
  · have h1 : (calculate p).yearlyContributions = calculateYearlyContributions p := rfl
    have h2 : (calculate p).totalValue =
        ((calculateYearlyContributions p).map (·.currentValue)).foldl (· + ·) 0 := rfl
    rw [h1, h2, foldl_add_eq_sum, calculateYearlyContributions, List.map_map, List.map_map]
    rfl
  · intro e he
    have h1 : (calculate p).yearlyContributions = calculateYearlyContributions p := rfl
    rw [h1, calculateYearlyContributions] at he
    simp only [List.mem_map] at he
    obtain ⟨i, _, rfl⟩ := he
    rfl

/-- Witness for C1 at `monthlyAmount = 1, annualRate = 1, years = 1`. -/
theorem C1_sum_invariant_witness :
    ((calculate ⟨1, 1, 1⟩).yearlyContributions.map (·.contribution)).sum =
      (calculate ⟨1, 1, 1⟩).totalValue :=
  (C1_sum_invariant ⟨1, 1, 1⟩ (by norm_num)).1

/-- C5: for every positive `monthlyAmount`, positive `annualRate` and
integer `years ≥ 1`, `calculate` with `years + 1` returns a strictly
larger `totalValue` than `calculate` with `years`. -/
theorem C5_years_monotonicity (monthlyAmount annualRate : ℚ) (years : ℕ)
    (hm : 0 < monthlyAmount) (hr : 0 < annualRate) (hY : 1 ≤ years) :
    (calculate ⟨monthlyAmount, annualRate, years⟩).totalValue <
      (calculate ⟨monthlyAmount, annualRate, years + 1⟩).totalValue := by
  rw [calculate_totalValue_closed, calculate_totalValue_closed]
  dsimp only
  rw [Finset.sum_range_succ]
  have h1 : (0 : ℚ) < 1 + annualRate := by linarith
  have h2 : (0 : ℚ) < (1 + annualRate) ^ years := pow_pos h1 years
  have h3 : (0 : ℚ) < monthlyAmount * 12 := by linarith
  have hpos : (0 : ℚ) < monthlyAmount * 12 * (1 + annualRate) ^ years := mul_pos h3 h2
  linarith

/-- Witness for C5 at `monthlyAmount = 1, annualRate = 1, years = 1`. -/
theorem C5_years_monotonicity_witness :
    (calculate ⟨1, 1, 1⟩).totalValue < (calculate ⟨1, 1, 2⟩).totalValue :=
  C5_years_monotonicity 1 1 1 (by norm_num) (by norm_num) (by norm_num)

/-- C9: for every finite `monthlyAmount` and `annualRate`, `calculate`
with `years = 0` returns (without throwing) an empty
`yearlyContributions` and all-zero aggregates. -/
theorem C9_zero_years_total (monthlyAmount annualRate : ℚ) :
    (calculate ⟨monthlyAmount, annualRate, 0⟩).yearlyContributions = [] ∧
    (calculate ⟨monthlyAmount, annualRate, 0⟩).totalValue = 0 ∧
    (calculate ⟨monthlyAmount, annualRate, 0⟩).totalContributed = 0 ∧
    (calculate ⟨monthlyAmount, annualRate, 0⟩).totalProfit = 0 ∧
    (calculate ⟨monthlyAmount, annualRate, 0⟩).profitRate = 0 := by
  simp [calculate, calculateYearlyContributions]

/-- Bernoulli's inequality specialised to twelve monthly periods:
`1 + r ≤ (1 + r / 12) ^ 12`. -/
theorem one_add_rate_le_monthly_pow (r : ℚ) (hr : 0 < r) :
    1 + r ≤ (1 + r / 12) ^ 12 := by
  have h := one_add_mul_le_pow (a := r / 12) (by linarith : (-2 : ℚ) ≤ r / 12) 12
  have h12 : ((12 : ℕ) : ℚ) * (r / 12) = r := by push_cast; ring
  rw [h12] at h
  exact h

/-- Per contribution year, the twelve separately compounded monthly
payments are strictly worth more at the horizon than the annual lump
compounded yearly, for a positive rate. -/
theorem monthly_year_gt_annual_year (m r : ℚ) (hm : 0 < m) (hr : 0 < r)
    (Y i : ℕ) (hi : i < Y) :
    calculateFutureValue (m * 12) r (Y - (i + 1)) <
      ∑ j ∈ Finset.range 12,
        calculateMonthlyFutureValue m (r / 12) (Y * 12 - (i * 12 + j)) := by
  have hs : (0 : ℚ) < r / 12 := by positivity
  have hsne : r / 12 ≠ 0 := ne_of_gt hs
  obtain ⟨k, hk⟩ : ∃ k, Y = i + 1 + k := ⟨Y - (i + 1), by omega⟩
  have hYk : Y - (i + 1) = k := by omega
  rw [calculateFutureValue_eq, hYk]
  have h1s : (0 : ℚ) < 1 + r / 12 := by linarith
  have h1s1 : (1 : ℚ) ≤ 1 + r / 12 := by linarith
  have hterm : ∀ j ∈ Finset.range 12,
      m * (1 + r) ^ k <
        calculateMonthlyFutureValue m (r / 12) (Y * 12 - (i * 12 + j)) := by
    intro j hj
    have hjlt : j < 12 := Finset.mem_range.mp hj
    rw [calculateMonthlyFutureValue, if_neg hsne]
    have hexp : Y * 12 - (i * 12 + j) = 12 * k + (12 - j) := by omega
    rw [hexp, pow_add]
    have hb : (1 + r) ≤ (1 + r / 12) ^ 12 := one_add_rate_le_monthly_pow r hr
    have hk1 : (1 + r) ^ k ≤ ((1 + r / 12) ^ 12) ^ k :=
      pow_le_pow_left (by linarith : (0 : ℚ) ≤ 1 + r) hb k
    rw [← pow_mul] at hk1
    have hj1 : (1 : ℚ) < (1 + r / 12) ^ (12 - j) := by
      have hlt : (1 : ℚ) < 1 + r / 12 := by linarith
      calc (1 : ℚ) < 1 + r / 12 := hlt
        _ ≤ (1 + r / 12) ^ (12 - j) := le_self_pow₀ h1s1 (by omega : 12 - j ≠ 0)
    have h2 : (1 + r / 12) ^ (12 * k) * 1 < (1 + r / 12) ^ (12 * k) * (1 + r / 12) ^ (12 - j) :=
      mul_lt_mul_of_pos_left hj1 (pow_pos h1s _)
    have h3 : (1 + r) ^ k < (1 + r / 12) ^ (12 * k) * (1 + r / 12) ^ (12 - j) := by
      calc (1 + r) ^ k ≤ (1 + r / 12) ^ (12 * k) := hk1
        _ = (1 + r / 12) ^ (12 * k) * 1 := by ring
        _ < _ := h2
    exact mul_lt_mul_of_pos_left h3 hm
  have hsum := Finset.sum_lt_sum_of_nonempty
    (Finset.nonempty_range_iff.mpr (by norm_num)) hterm
  rw [Finset.sum_const, Finset.card_range, nsmul_eq_mul] at hsum
  calc m * 12 * (1 + r) ^ k = (12 : ℕ) * (m * (1 + r) ^ k) := by push_cast; ring
    _ < _ := hsum

/-- With positive monthly amount, positive rate and at least one year,
monthly compounding gives a strictly larger total value than the
annual-lump model. -/
theorem monthly_total_gt_annual_total (p : InvestmentParams)
    (hm : 0 < p.monthlyAmount) (hr : 0 < p.annualRate) (hY : 1 ≤ p.years) :
    (calculate p).totalValue < (calculateWithMonthlyCompounding p).totalValue := by
  rw [calculate_totalValue_eq, cwmc_totalValue_eq]
  refine Finset.sum_lt_sum_of_nonempty (Finset.nonempty_range_iff.mpr (by omega)) ?_
  intro i hi
  exact monthly_year_gt_annual_year p.monthlyAmount p.annualRate hm hr p.years i
    (Finset.mem_range.mp hi)

/-- C4: for every params with positive `monthlyAmount`, positive
`annualRate` and integer `years ≥ 1`,
`calculateWithMonthlyCompounding(params).totalValue` is at least
`calculate(params).totalValue`; and at `monthlyAmount = 10000`,
`annualRate = 0.05`, `years = 10` the monthly model strictly exceeds the
annual one. -/
theorem C4_monthly_vs_annual :
    (∀ p : InvestmentParams, 0 < p.monthlyAmount → 0 < p.annualRate → 1 ≤ p.years →
      (calculate p).totalValue ≤ (calculateWithMonthlyCompounding p).totalValue) ∧
    (calculate divergenceParams).totalValue <
      (calculateWithMonthlyCompounding divergenceParams).totalValue := by
  constructor
  · intro p hm hr hY
    exact le_of_lt (monthly_total_gt_annual_total p hm hr hY)
  · exact monthly_total_gt_annual_total divergenceParams
      (by norm_num [divergenceParams]) (by norm_num [divergenceParams])
      (by norm_num [divergenceParams])

/-- Witness for C4 at `monthlyAmount = 1, annualRate = 1, years = 1`. -/
theorem C4_monthly_vs_annual_witness :
    (calculate ⟨1, 1, 1⟩).totalValue ≤ (calculateWithMonthlyCompounding ⟨1, 1, 1⟩).totalValue :=
  C4_monthly_vs_annual.1 ⟨1, 1, 1⟩ (by norm_num) (by norm_num) (by norm_num)


/-- C2 counterexample: an infinite rate is NOT substituted — the guard
tests only `isNaN`, `null` and `undefined` — so `futureValue(100, +∞, 1)`
is `+Infinity` while `futureValue(100, 0.01, 1)` is `101`. -/
theorem C2_infinity_not_substituted :
    calculateFutureValueJS (.finite 100) (.num .posInf) 1 = .posInf ∧
    calculateFutureValueJS (.finite 100) (.num (.finite (1 / 100))) 1 = .finite 101 ∧
    JSNum.posInf ≠ JSNum.finite 101 := by
  refine ⟨?_, ?_, ?_⟩
  · norm_num [calculateFutureValueJS, jsPowNat, jsAdd, jsMul]
  · norm_num [calculateFutureValueJS, jsPowNat, jsAdd, jsMul]
  · simp

/-- C2 (amended): the silent 1% substitution inside `futureValue` applies
exactly to `NaN`, `null` and `undefined` rates — for those,
`futureValue(x, rate, n)` equals `futureValue(x, 0.01, n)` for every `x`
and `n` — while an infinite rate is not substituted and propagates through
the power formula (at `x = 100, n = 1` a `+Infinity` rate yields
`+Infinity`). -/
theorem C2_nonfinite_rate_fallback :
    (∀ (x : JSNum) (n : ℕ),
      calculateFutureValueJS x (.num .nan) n =
        calculateFutureValueJS x (.num (.finite (1 / 100))) n ∧
      calculateFutureValueJS x .null n =
        calculateFutureValueJS x (.num (.finite (1 / 100))) n ∧
      calculateFutureValueJS x .undef n =
        calculateFutureValueJS x (.num (.finite (1 / 100))) n) ∧
    calculateFutureValueJS (.finite 100) (.num .posInf) 1 = .posInf := by
  refine ⟨fun x n => ⟨rfl, rfl, rfl⟩, ?_⟩
  norm_num [calculateFutureValueJS, jsPowNat, jsAdd, jsMul]

/-- C6: the concrete scenario `monthlyAmount = 33333, annualRate = 0.05,
years = 30`: `totalContributed` is exactly 11,999,880; the contribution
list has thirty entries ordered by year ascending (entry `i` is year
`i + 1`, so entry 0 is year 1); and for `1 ≤ y ≤ 30` entry `y - 1` has
`currentValue = (33333 × 12) × 1.05 ^ (30 - y)`. -/
theorem C6_concrete_scenario :
    (calculate scenarioParams).totalContributed = 11999880 ∧
    (calculate scenarioParams).yearlyContributions.length = 30 ∧
    (∀ i : ℕ, i < 30 →
      ((calculate scenarioParams).yearlyContributions.getD i default).year = i + 1) ∧
    (∀ y : ℕ, 1 ≤ y → y ≤ 30 →
      ((calculate scenarioParams).yearlyContributions.getD (y - 1) default).currentValue =
        (33333 * 12) * (1 + 1 / 20 : ℚ) ^ (30 - y)) := by
  refine ⟨?_, ?_, ?_, ?_⟩
  · show (33333 : ℚ) * 12 * ((30 : ℕ) : ℚ) = 11999880
    norm_num
  · simp [calculate, calculateYearlyContributions, scenarioParams]
  · intro i hi
    simp only [calculate, calculateYearlyContributions, scenarioParams,
      List.getD_eq_getElem?_getD]
    rw [List.getElem?_eq_getElem (by simpa using hi)]
    simp only [List.getElem_map, List.getElem_range, Option.getD_some]
  · intro y hy1 hy30
    have hlt : y - 1 < 30 := by omega
    simp only [calculate, calculateYearlyContributions, scenarioParams,
      List.getD_eq_getElem?_getD]
    rw [List.getElem?_eq_getElem (by simpa using hlt)]
    simp only [List.getElem_map, List.getElem_range, Option.getD_some]
    rw [calculateFutureValue_eq]
    have he : 30 - (y - 1 + 1) = 30 - y := by omega
    rw [he]

/-- Witness for C6: the aggregate, the first entry's year, and the last
entry's current value, at concrete indices. -/
theorem C6_concrete_scenario_witness :
    (calculate scenarioParams).totalContributed = 11999880 ∧
    ((calculate scenarioParams).yearlyContributions.getD 0 default).year = 1 ∧
    ((calculate scenarioParams).yearlyContributions.getD (30 - 1) default).currentValue =
      (33333 * 12) * (1 + 1 / 20 : ℚ) ^ (30 - 30) :=
  ⟨C6_concrete_scenario.1, C6_concrete_scenario.2.2.1 0 (by norm_num),
   C6_concrete_scenario.2.2.2 30 (by norm_num) (by norm_num)⟩
/-- Indexing with `getD` and any default on a mapped `List.range` at an in-range index
is the mapped function value. -/
theorem getD_map_range {α : Type} (d : α) (f : ℕ → α) (n i : ℕ) (h : i < n) :
    ((List.range n).map f).getD i d = f i := by
  simp only [List.getD_eq_getElem?_getD]
  rw [List.getElem?_eq_getElem (by simpa using h)]
  simp

/-- C10: the last stage of the last entry of `generateGrowthStageData`
accumulates exactly `calculate(params).totalValue` (the same future-value
terms summed in the same order), and within every entry, stage `k`'s
`accumulated` is the running sum of the values of stages `0..k`. -/
theorem C10_growth_stage_refinement (p : InvestmentParams) (hY : 1 ≤ p.years) :
    (((generateGrowthStageData p).getD (p.years - 1) default).stages.getD (p.years - 1)
        default).accumulated = (calculate p).totalValue ∧
    ∀ entry ∈ generateGrowthStageData p, ∀ k < entry.stages.length,
      (entry.stages.getD k default).accumulated =
        ((entry.stages.take (k + 1)).map (·.value)).sum := by
  have hYe : p.years - 1 + 1 = p.years := by omega
  constructor
  · rw [generateGrowthStageData,
      getD_map_range _ _ _ _ (show p.years - 1 < p.years by omega)]
    dsimp only
    rw [getD_map_range _ _ _ _ (show p.years - 1 < p.years - 1 + 1 by omega)]
    dsimp only
    simp only [hYe]
    rw [range_map_foldl, calculate_totalValue_eq]
  · intro entry hentry k hk
    simp only [generateGrowthStageData, List.mem_map, List.mem_range] at hentry
    obtain ⟨ci, hci, rfl⟩ := hentry
    dsimp only at hk ⊢
    simp only [List.length_map, List.length_range] at hk
    rw [getD_map_range _ _ _ _ hk]
    rw [← List.map_take, List.take_range]
    have hmin : min (k + 1) (ci + 1) = k + 1 := by omega
    rw [hmin, List.map_map, foldl_add_eq_sum]
    rfl

/-- Witness for C10 at `monthlyAmount = 1, annualRate = 1, years = 1`. -/
theorem C10_growth_stage_refinement_witness :
    (((generateGrowthStageData ⟨1, 1, 1⟩).getD 0 default).stages.getD 0
        default).accumulated = (calculate ⟨1, 1, 1⟩).totalValue :=
  (C10_growth_stage_refinement ⟨1, 1, 1⟩ (by norm_num)).1

/-- C3 counterexample: on the one-element list with `annualAmount = 0` and
`currentValue = 0`, `calculatePerformanceStats` returns
`compoundAnnualGrowthRate = NaN` (from `Math.pow(0/0, 1) - 1`), not 0. -/
theorem C3_cagr_counterexample :
    (calculatePerformanceStats cexStatsList).compoundAnnualGrowthRate = JSNum.nan ∧
    JSNum.nan ≠ JSNum.finite 0 := by
  constructor
  · norm_num [calculatePerformanceStats, cexStatsList, psTotalContributed, psTotalValue,
      jsDivQ, jsPowQ, jsSub]
  · simp

/-- Subtraction `jsSub` preserves finiteness. -/
theorem isFiniteNum_jsSub (x : JSNum) (q : ℚ) : (jsSub x q).isFiniteNum = x.isFiniteNum := by
  cases x <;> rfl

/-- A non-finite base raised to a positive exponent stays non-finite. -/
theorem jsPowQ_nonfinite (b : JSNum) (e : ℚ) (hepos : 0 < e)
    (hb : b.isFiniteNum = false) : (jsPowQ b e).isFiniteNum = false := by
  cases b with
  | nan => simp [jsPowQ, hepos.ne', JSNum.isFiniteNum]
  | posInf => simp [jsPowQ, hepos.ne', hepos, JSNum.isFiniteNum]
  | negInf =>
      simp only [jsPowQ, if_neg hepos.ne', if_pos hepos]
      cases qIsOddInt e <;> simp [JSNum.isFiniteNum]
  | finite q => simp [JSNum.isFiniteNum] at hb

/-- Division of a finite value by zero is non-finite. -/
theorem jsDivQ_zero_nonfinite (a : ℚ) : (jsDivQ a 0).isFiniteNum = false := by
  simp only [jsDivQ, if_pos rfl]
  split_ifs <;> rfl

/-- C3 (amended): `profitRate` (in `calculate`) and `totalReturnRate` (in
`calculatePerformanceStats`) explicitly guard `totalContributed > 0` and
default to 0; `compoundAnnualGrowthRate` checks only `years > 0`, so on
every non-empty contribution list whose `annualAmount` values sum to 0 it
divides by zero inside `Math.pow` and comes out as `NaN` or `±Infinity`
(never a finite 0). -/
theorem C3_division_guards :
    (∀ p : InvestmentParams, p.monthlyAmount * 12 * (p.years : ℚ) ≤ 0 →
      (calculate p).profitRate = 0) ∧
    (∀ l : List YearlyContribution, psTotalContributed l ≤ 0 →
      (calculatePerformanceStats l).totalReturnRate = 0) ∧
    (∀ l : List YearlyContribution, l ≠ [] → psTotalContributed l = 0 →
      ((calculatePerformanceStats l).compoundAnnualGrowthRate).isFiniteNum = false) := by
  refine ⟨?_, ?_, ?_⟩
  · intro p h
    simp only [calculate]
    rw [if_neg (by linarith : ¬ (0 : ℚ) < p.monthlyAmount * 12 * (p.years : ℚ))]
  · intro l h
    by_cases hl : l.length = 0
    · simp [calculatePerformanceStats, hl]
    · simp only [calculatePerformanceStats, hl, if_false]
      rw [if_neg (by linarith : ¬ (0 : ℚ) < psTotalContributed l)]
  · intro l hl htc
    have hlen : l.length ≠ 0 := fun h => hl (List.length_eq_zero.mp h)
    have hlpos : (0 : ℚ) < (l.length : ℚ) := by
      exact_mod_cast Nat.pos_of_ne_zero hlen
    have hepos : 0 < (1 : ℚ) / (l.length : ℚ) := by positivity
    simp only [calculatePerformanceStats, hlen, if_false]
    rw [if_pos (Nat.pos_of_ne_zero hlen), htc]
    rw [isFiniteNum_jsSub]
    exact jsPowQ_nonfinite _ _ hepos (jsDivQ_zero_nonfinite _)

/-- Witness for C3 (amended) at concrete inputs. -/
theorem C3_division_guards_witness :
    (calculate ⟨0, 0, 1⟩).profitRate = 0 ∧
    (calculatePerformanceStats cexStatsList).totalReturnRate = 0 ∧
    ((calculatePerformanceStats cexStatsList).compoundAnnualGrowthRate).isFiniteNum = false :=
  ⟨C3_division_guards.1 ⟨0, 0, 1⟩ (by norm_num),
   C3_division_guards.2.1 cexStatsList (by norm_num [psTotalContributed, cexStatsList]),
   C3_division_guards.2.2 cexStatsList (by simp [cexStatsList])
     (by norm_num [psTotalContributed, cexStatsList])⟩

theorem mem_validateAnnualAmount_field (a : JSNum) :
    ∀ e ∈ validateAnnualAmount a, e.field = "annualAmount" := by
  intro e he
  unfold validateAnnualAmount at he
  split_ifs at he <;> (try simp_all) <;> aesop

theorem mem_validateAnnualRate_field (r : JSNum) :
    ∀ e ∈ validateAnnualRate r, e.field = "annualRate" := by
  intro e he
  unfold validateAnnualRate at he
  split_ifs at he <;> (try simp_all) <;> aesop

theorem mem_validateLogicalConsistency_field (p : InvestmentParamsV) :
    ∀ e ∈ validateLogicalConsistency p,
      e.field = "annualAmount" ∨ e.field = "annualRate" := by
  intro e he
  unfold validateLogicalConsistency at he
  split_ifs at he <;> (try simp_all) <;> aesop

theorem validateYears_zero_eq : validateYears (.finite 0) =
    [⟨"years", "積立期間は1年以上で入力してください", .finite 0⟩,
     ⟨"years", "積立期間は正の値で入力してください", .finite 0⟩] := by
  norm_num [validateYears, INPUT_CONSTRAINTS, jsIsInteger, jsLt, jsLe] <;> simp

theorem validateYears_one_eq : validateYears (.finite 1) = [] := by
  norm_num [validateYears, INPUT_CONSTRAINTS, jsIsInteger, jsLt, jsLe] <;> simp

theorem validateYears_fifty_eq : validateYears (.finite 50) = [] := by
  norm_num [validateYears, INPUT_CONSTRAINTS, jsIsInteger, jsLt, jsLe] <;> simp

theorem validateYears_fiftyone_eq : validateYears (.finite 51) =
    [⟨"years", "積立期間は50年以下で入力してください", .finite 51⟩] := by
  norm_num [validateYears, INPUT_CONSTRAINTS, jsIsInteger, jsLt, jsLe] <;> simp

theorem C7_years_boundary (a r : ℚ)
    (ha1 : 1000 ≤ a) (ha2 : a ≤ 100000000) (hr1 : 1 / 10000 ≤ r) (hr2 : r ≤ 3 / 10) :
    (∃ e ∈ validate ⟨.finite a, .finite r, .finite 0⟩,
      e.field = "years" ∧ getErrorSeverity e = .error) ∧
    (∃ e ∈ validate ⟨.finite a, .finite r, .finite 51⟩,
      e.field = "years" ∧ getErrorSeverity e = .error) ∧
    (∀ e ∈ validate ⟨.finite a, .finite r, .finite 1⟩, e.field ≠ "years") ∧
    (∀ e ∈ validate ⟨.finite a, .finite r, .finite 50⟩, e.field ≠ "years") := by
  refine ⟨?_, ?_, ?_, ?_⟩
  · refine ⟨⟨"years", "積立期間は1年以上で入力してください", .finite 0⟩, ?_, rfl, by decide⟩
    simp only [validate]
    apply List.mem_append.mpr; left
    apply List.mem_append.mpr; right
    rw [validateYears_zero_eq]
    simp
  · refine ⟨⟨"years", "積立期間は50年以下で入力してください", .finite 51⟩, ?_, rfl, by decide⟩
    simp only [validate]
    apply List.mem_append.mpr; left
    apply List.mem_append.mpr; right
    rw [validateYears_fiftyone_eq]
    simp
  · intro e he
    simp only [validate] at he
    rcases List.mem_append.mp he with h | h
    · rcases List.mem_append.mp h with h | h
      · rcases List.mem_append.mp h with h | h
        · have hf := mem_validateAnnualAmount_field _ e h
          rw [hf]; decide
        · have hf := mem_validateAnnualRate_field _ e h
          rw [hf]; decide
      · rw [validateYears_one_eq] at h; simp at h
    · rcases mem_validateLogicalConsistency_field _ e h with hf | hf <;>
        (rw [hf]; decide)
  · intro e he
    simp only [validate] at he
    rcases List.mem_append.mp he with h | h
    · rcases List.mem_append.mp h with h | h
      · rcases List.mem_append.mp h with h | h
        · have hf := mem_validateAnnualAmount_field _ e h
          rw [hf]; decide
        · have hf := mem_validateAnnualRate_field _ e h
          rw [hf]; decide
      · rw [validateYears_fifty_eq] at h; simp at h
    · rcases mem_validateLogicalConsistency_field _ e h with hf | hf <;>
        (rw [hf]; decide)

theorem C7_years_boundary_witness :
    (∃ e ∈ validate ⟨.finite 400000, .finite (1 / 20), .finite 0⟩,
      e.field = "years" ∧ getErrorSeverity e = .error) ∧
    (∃ e ∈ validate ⟨.finite 400000, .finite (1 / 20), .finite 51⟩,
      e.field = "years" ∧ getErrorSeverity e = .error) ∧
    (∀ e ∈ validate ⟨.finite 400000, .finite (1 / 20), .finite 1⟩, e.field ≠ "years") ∧
    (∀ e ∈ validate ⟨.finite 400000, .finite (1 / 20), .finite 50⟩, e.field ≠ "years") :=
  C7_years_boundary 400000 (1 / 20) (by norm_num) (by norm_num) (by norm_num) (by norm_num)

theorem validateYears_nonint (y : ℚ) (h1 : 1 ≤ y) (h2 : y ≤ 50) (hd : y.den ≠ 1) :
    validateYears (.finite y) =
      [⟨"years", "積立期間は整数で入力してください", .finite y⟩] := by
  have h1' : jsIsInteger (.finite y) = false := by simp [jsIsInteger, hd]
  have h2' : jsLt (.finite y) (.finite 1) = false := by
    simp [jsLt]; linarith
  have h3' : jsLt (.finite 50) (.finite y) = false := by
    simp [jsLt]; linarith
  have h4' : jsLe (.finite y) (.finite 0) = false := by
    simp [jsLe]; linarith
  rw [validateYears]
  rw [if_neg (by simp : ¬(JSNum.finite y = JSNum.nan))]
  simp [INPUT_CONSTRAINTS, h1', h2', h3', h4']

theorem C8_nonint_years_info (a r y : ℚ) (hy1 : 1 ≤ y) (hy2 : y ≤ 50) (hd : y.den ≠ 1) :
    ∃ e ∈ validate ⟨.finite a, .finite r, .finite y⟩,
      e.field = "years" ∧ e.message = "積立期間は整数で入力してください" ∧
      getErrorSeverity e = .info := by
  refine ⟨⟨"years", "積立期間は整数で入力してください", .finite y⟩, ?_, rfl, rfl, rfl⟩
  simp only [validate]
  apply List.mem_append.mpr; left
  apply List.mem_append.mpr; right
  rw [validateYears_nonint y hy1 hy2 hd]
  simp

theorem C8_nonint_years_info_witness :
    ∃ e ∈ validate ⟨.finite 400000, .finite (1 / 20), .finite (5 / 2)⟩,
      e.field = "years" ∧ e.message = "積立期間は整数で入力してください" ∧
      getErrorSeverity e = .info :=
  C8_nonint_years_info 400000 (1 / 20) (5 / 2) (by norm_num) (by norm_num) (by norm_num)

theorem C8_severity_counterexample :
    (validate cexValidatorParams).filter (fun e => e.field == "years") =
      [{ field := "years", message := "積立期間は整数で入力してください", value := .finite (5 / 2) }] ∧
    getErrorSeverity ⟨"years", "積立期間は整数で入力してください", .finite (5 / 2)⟩ = .info ∧
    Severity.info ≠ Severity.error := by
  refine ⟨?_, rfl, by decide⟩
  norm_num [validate, cexValidatorParams, validateAnnualAmount, validateAnnualRate,
    validateYears, validateLogicalConsistency, INPUT_CONSTRAINTS, jsIsInteger,
    jsLt, jsLe, jsMul, List.filter] <;> simp
